import Mathlib

/-!
Verification of the multi-agent conversational orchestration engine of the
financial-agent repository: the web-research and calculator subagent state
machines (`src/backend/agent/src/subagents.ts`, `calculator.ts`), the
top-level investor agent state machine (`src/backend/agent/src/investor_agent.ts`),
the tool layer (`tools.ts`), the status publisher (`status-publisher.ts`),
the result cache and service orchestration (`investor-agent.service.ts`),
and the Redis pub/sub status channel (`redis.service.ts` together with the
WebSocket gateway).

The embedding is shallow: each TypeScript node function becomes a pure Lean
function on an explicit state record; the LLM decision oracle and the
external tools (web-search provider, Python sandbox) are parameters; partial
channel updates returned by graph nodes are applied exactly as LangGraph
applies them (fields with a registered reducer go through the reducer,
plain fields are replaced, absent fields are unchanged).  JavaScript
truthiness tests on optional strings are modelled by `jsTruthy`.
-/

set_option maxRecDepth 4000

/-! ## Web researcher subagent (subagents.ts, analyze/search graph) -/

/-- Constant `MAX_RESEARCH_ITERATIONS` from subagents.ts. -/
def MAX_RESEARCH_ITERATIONS : Nat := 10

/-- Constant `RESEARCH_THRESHOLD` from subagents.ts. -/
def RESEARCH_THRESHOLD : Nat := 3

/-- JavaScript truthiness of an optional string: `undefined` and the empty
string are falsy. -/
def jsTruthy : Option String → Bool
  | none => false
  | some s => s != ""

/-- Reducer registered on the `research_results` channel: appends the
right-hand batch when it is non-empty, otherwise keeps the left value. -/
def webResearcherReducer (left right : List String) : List String :=
  if right.length > 0 then left ++ right else left

/-- The decision returned by the `b.WebResearcher` oracle: either a
`research_summary`, or a continue-searching decision carrying a
`search_query` (the source also accepts the synonymous `additional_query`
field) and optionally `planning_steps`, or a value with neither field
(the fall-through case in the source). -/
inductive ResearchDecision where
  | research_summary (text : String)
  | search_query (q : String) (planning : Option String)
  | other
deriving DecidableEq, Repr

/-- The internal `decision_type` channel of both subagent graphs. -/
inductive SubDecisionType where
  | complete
  | search
deriving DecidableEq, Repr

/-- State of the web researcher graph (`WebResearcherState` in
subagents.ts): original query, accumulated result blocks, optional
planning text, iteration counter, completion flag, and the internal
node-communication fields. -/
structure WebResearcherState where
  original_query : String
  research_results : List String := []
  planning_steps : Option String := none
  iteration_count : Nat := 0
  complete : Bool := false
  pending_search_query : Option String := none
  decision_type : Option SubDecisionType := none
deriving DecidableEq, Repr

/-- Node `analyzeNode` of the web researcher, applied to the oracle decision of
the current step.  In the forced-completion branch the summary is
synthesised from `previousResultsText`; in the fall-through branch the
source returns the whole state spread after a `decision_type` key, so the
stale `decision_type` of the state wins and the `research_results` key is
re-fed to the channel reducer. -/
def analyzeNode (d : ResearchDecision) (s : WebResearcherState) : WebResearcherState :=
  let previousResultsText : Option String :=
    if s.research_results.length > 0
    then some (String.intercalate "\n\n" s.research_results)
    else none
  match d with
  | .research_summary text =>
      { s with
        decision_type := some .complete
        research_results := webResearcherReducer s.research_results [text]
        iteration_count := s.iteration_count + 1
        complete := true
        planning_steps := none }
  | .search_query q dplanning =>
      let planningSteps : Option String :=
        match dplanning with
        | some p => some p
        | none => s.planning_steps
      if s.iteration_count ≥ MAX_RESEARCH_ITERATIONS then
        let summary : String :=
          match previousResultsText with
          | some t =>
              "Research Summary (after " ++ toString s.iteration_count ++
                " iterations):\n\n" ++ t
          | none => "Research completed with available information."
        { s with
          decision_type := some .complete
          research_results := webResearcherReducer s.research_results [summary]
          iteration_count := s.iteration_count + 1
          complete := true
          planning_steps := none }
      else
        { s with
          decision_type := some .search
          pending_search_query := some q
          planning_steps := planningSteps }
  | .other =>
      { s with
        research_results := webResearcherReducer s.research_results s.research_results }

/-! ## Tool layer (tools.ts) -/

/-- Function `tavilySearch` from tools.ts: throws when `TAVILY_API_KEY` is unset,
otherwise defers to the search provider, whose own failure is not caught
and therefore propagates.  The provider is modelled as a function from the
query to `Except`, the `.ok` payload being the JSON-stringified results. -/
def tavilySearch (apiKey : Option String) (provider : String → Except String String)
    (query : String) : Except String String :=
  match apiKey with
  | none => Except.error "TAVILY_API_KEY environment variable is not set"
  | some _ => provider query

/-- Function `pythonExecutor` from tools.ts: the whole body, including sandbox
initialisation, runs inside a try/catch whose catch branch returns the
text `Execution error: <message>`.  The sandbox is modelled as a function
from the code to `Except`, the `.ok` payload being the stringified result;
the function itself is total — no failure escapes it. -/
def pythonExecutor (sandbox : String → Except String String) (code : String) : String :=
  match sandbox code with
  | Except.ok result => result
  | Except.error e => "Execution error: " ++ e

/-- Node `searchNode` of the web researcher.  The guard on
`state.pending_search_query` is a JavaScript truthiness test, so an
absent or empty query takes the defensive branch.  A failing search
provider is not caught, so the node result is an `Except`. -/
def searchNode (apiKey : Option String) (provider : String → Except String String)
    (s : WebResearcherState) : Except String WebResearcherState :=
  if jsTruthy s.pending_search_query then
    match s.pending_search_query with
    | some q =>
        (tavilySearch apiKey provider q).map (fun searchResults =>
          { s with
            research_results := webResearcherReducer s.research_results [searchResults]
            pending_search_query := none
            iteration_count := s.iteration_count + 1
            complete := false
            decision_type := none })
    | none => Except.ok { s with decision_type := some .complete, complete := true }
  else
    Except.ok { s with decision_type := some .complete, complete := true }

/-- The initial web-researcher state as built by the top-level
`researchNode` delegation (`research_results: []`, `iteration_count: 0`,
`complete: false`). -/
def researchInit (q : String) : WebResearcherState :=
  { original_query := q }

/-- The driver of the compiled web-researcher graph: run `analyze`; the
conditional edge goes to `search` exactly when `decision_type` is
`search` (every other case reaches `END`), and `search` has an
unconditional edge back to `analyze`.  `fuel` bounds the number of
`analyze` entries; `none` means the fuel ran out, `some (.error e)` means
a tool failure propagated out of the run. -/
def runResearch (oracle : Nat → ResearchDecision) (apiKey : Option String)
    (provider : String → Except String String) :
    Nat → Nat → WebResearcherState → Option (Except String WebResearcherState)
  | 0, _, _ => none
  | fuel + 1, step, s =>
      let s1 := analyzeNode (oracle step) s
      match s1.decision_type with
      | some SubDecisionType.search =>
          match searchNode apiKey provider s1 with
          | Except.error e => some (Except.error e)
          | Except.ok s2 => runResearch oracle apiKey provider fuel (step + 1) s2
      | _ => some (Except.ok s1)

/-- Extracts the final `iteration_count` of a successfully terminated
research run. -/
def runIterationCount (r : Option (Except String WebResearcherState)) : Option Nat :=
  match r with
  | some (Except.ok sf) => some sf.iteration_count
  | _ => none

/-! ## Calculator subagent (calculator.ts, analyze/execute graph) -/

/-- Constant `MAX_CALCULATOR_ITERATIONS` from calculator.ts. -/
def MAX_CALCULATOR_ITERATIONS : Nat := 10

/-- Constant `CALCULATOR_THRESHOLD` from calculator.ts. -/
def CALCULATOR_THRESHOLD : Nat := 3

/-- The decision returned by the `b.PythonCalculator` oracle: either a
final `calculation_result`, or `python_code` to execute together with its
required `plannification_steps`, or a value with neither field. -/
inductive CalcDecision where
  | calculation_result (r : String)
  | python_code (code : String) (plannification : String)
  | other
deriving DecidableEq, Repr

/-- The internal `decision_type` channel of the calculator graph. -/
inductive CalcDecisionType where
  | complete
  | execute
deriving DecidableEq, Repr

/-- State of the calculator graph (`CalculatorState` in calculator.ts).
`all_execution_results` is a plain channel (no reducer): nodes return the
whole concatenated array, which replaces the previous value. -/
structure CalculatorState where
  calculation_request : String
  python_code_response : Option String := none
  all_execution_results : List String := []
  previous_plannification_steps : Option String := none
  previous_python_code : Option String := none
  iteration_count : Nat := 0
  complete : Bool := false
  pending_python_code : Option String := none
  pending_plannification_steps : Option String := none
  decision_type : Option CalcDecisionType := none
deriving DecidableEq, Repr

/-- Node `analyzeNode` of the calculator.  The forced-completion branch uses a
truthiness test on `python_code_response`; the fall-through branch spreads
the state after a `decision_type` key, so the stale state value wins and
the state is returned unchanged (all channels of this graph are plain). -/
def calcAnalyzeNode (d : CalcDecision) (s : CalculatorState) : CalculatorState :=
  match d with
  | .calculation_result r =>
      { s with
        decision_type := some .complete
        python_code_response := some r
        iteration_count := s.iteration_count + 1
        complete := true }
  | .python_code code plannification =>
      if s.iteration_count ≥ MAX_CALCULATOR_ITERATIONS then
        let finalResult : String :=
          if jsTruthy s.python_code_response then
            "Calculation Result (after " ++ toString s.iteration_count ++
              " iterations):\n\n" ++ (s.python_code_response.getD "")
          else "Calculation completed with available information."
        { s with
          decision_type := some .complete
          python_code_response := some finalResult
          iteration_count := s.iteration_count + 1
          complete := true }
      else
        { s with
          decision_type := some .execute
          pending_python_code := some code
          pending_plannification_steps := some plannification }
  | .other => s

/-- Node `executeNode` of the calculator.  The guard on `pending_python_code`
is a truthiness test.  Because `pythonExecutor` is total (its own
try/catch turns every failure, sandbox initialisation included, into an
`Execution error:` text), the own catch branch of the node is dead code and
the node always returns a state that loops back to `analyze`. -/
def executeNode (sandbox : String → Except String String) (s : CalculatorState) :
    CalculatorState :=
  if jsTruthy s.pending_python_code then
    match s.pending_python_code with
    | some code =>
        let executionResult := pythonExecutor sandbox code
        { s with
          python_code_response := some executionResult
          all_execution_results := s.all_execution_results ++ [executionResult]
          previous_plannification_steps := s.pending_plannification_steps
          previous_python_code := some code
          pending_python_code := none
          pending_plannification_steps := none
          iteration_count := s.iteration_count + 1
          complete := false
          decision_type := none }
    | none => { s with decision_type := some .complete, complete := true }
  else
    { s with decision_type := some .complete, complete := true }

/-! ## Top-level investor agent (investor_agent.ts) -/

/-- Message role. -/
inductive Role where
  | user
  | assistant
deriving DecidableEq, Repr

/-- A conversation message (`MessageSchema` in investor_agent.ts). -/
structure ChatMsg where
  role : Role
  message : String
deriving DecidableEq, Repr

/-- Reducer registered on the `messages` channel: appends the right-hand
batch when it is non-empty, otherwise keeps the left value. -/
def messagesReducer (left right : List ChatMsg) : List ChatMsg :=
  if right.length > 0 then left ++ right else left

/-- The decision returned by the `b.InvestorAgent` oracle: request
research, request a calculation (both optionally carrying
`planning_steps`), ask a clarifying `question`, emit a final `response`,
or none of the four fields (the fall-through case). -/
inductive AgentDecision where
  | research_query (q : String) (planning : Option String)
  | calculation_request (r : String) (planning : Option String)
  | question (q : String)
  | response (r : String)
  | other
deriving DecidableEq, Repr

/-- The `current_action` enum of the top-level state. -/
inductive AgentAction where
  | thinking
  | researching
  | calculating
  | responding
  | asking
deriving DecidableEq, Repr

/-- State of the top-level graph (`InvestorAgentState` in
investor_agent.ts, the variant with accumulated result sequences).
`messages` is the only channel with a reducer; `input` accepts either a
raw string or a pre-formatted message list. -/
structure InvestorAgentState where
  input : Option (Sum String (List ChatMsg)) := none
  messages : List ChatMsg := []
  turnCount : Nat := 0
  research_results : Option String := none
  calculation_results : Option String := none
  accumulated_research_results : List String := []
  accumulated_calculation_results : List String := []
  current_action : AgentAction := .thinking
  pending_research_query : Option String := none
  pending_calculation_request : Option String := none
  planning_steps : Option String := none
deriving DecidableEq, Repr

/-- Node `thinkNode` of the top-level graph, applied to the oracle decision.
All four decision branches clear the transient `research_results` and
`calculation_results`; the terminal `question`/`response` branches also
clear both accumulated result sequences (the workflow is complete); the
fall-through branch spreads the whole state, which re-feeds the
`messages` key to its reducer. -/
def thinkNode (d : AgentDecision) (s : InvestorAgentState) : InvestorAgentState :=
  match d with
  | .research_query q planning =>
      { s with
        current_action := .researching
        pending_research_query := some q
        planning_steps := planning
        research_results := none
        calculation_results := none }
  | .calculation_request r planning =>
      { s with
        current_action := .calculating
        pending_calculation_request := some r
        planning_steps := planning
        research_results := none
        calculation_results := none }
  | .question q =>
      { s with
        current_action := .asking
        messages := messagesReducer s.messages [⟨Role.assistant, q⟩]
        research_results := none
        calculation_results := none
        accumulated_research_results := []
        accumulated_calculation_results := [] }
  | .response r =>
      { s with
        current_action := .responding
        messages := messagesReducer s.messages [⟨Role.assistant, r⟩]
        turnCount := s.turnCount + 1
        planning_steps := none
        research_results := none
        calculation_results := none
        accumulated_research_results := []
        accumulated_calculation_results := [] }
  | .other =>
      { s with
        messages := messagesReducer s.messages s.messages
        research_results := none
        calculation_results := none }

/-- Node `researchNode` of the top-level graph: when a (truthy) pending query
exists, delegate to the web researcher — whose joined result blocks are
the parameter `subResults` — store the joined text in the transient slot,
append it to the accumulated sequence and clear the pending query;
otherwise skip delegation and return to thinking. -/
def agentResearchNode (subResults : List String) (s : InvestorAgentState) :
    InvestorAgentState :=
  if jsTruthy s.pending_research_query then
    let finalResults := String.intercalate "\n\n" subResults
    { s with
      research_results := some finalResults
      accumulated_research_results := s.accumulated_research_results ++ [finalResults]
      current_action := .thinking
      pending_research_query := none }
  else
    { s with current_action := .thinking }

/-- Node `calculateNode` of the top-level graph: when a (truthy) pending
request exists, delegate to the calculator — whose final
`python_code_response` is the parameter `subResponse` — defaulting to
`"Calculation completed"` when that is absent or empty (the `||` of the
source), append to the accumulated sequence and clear the pending request;
otherwise skip delegation and return to thinking. -/
def agentCalculateNode (subResponse : Option String) (s : InvestorAgentState) :
    InvestorAgentState :=
  if jsTruthy s.pending_calculation_request then
    let finalResult :=
      if jsTruthy subResponse then subResponse.getD "" else "Calculation completed"
    { s with
      calculation_results := some finalResult
      accumulated_calculation_results := s.accumulated_calculation_results ++ [finalResult]
      current_action := .thinking
      pending_calculation_request := none }
  else
    { s with current_action := .thinking }

/-- Node `formatInputNode`: wraps a (truthy) raw string into a single user
message, or passes a pre-formatted list through; the returned `messages`
key goes through `messagesReducer`, and `input` is cleared. -/
def formatInputNode (s : InvestorAgentState) : InvestorAgentState :=
  match s.input with
  | none => s
  | some (Sum.inl str) =>
      if str == "" then s
      else
        { s with
          messages := messagesReducer s.messages [⟨Role.user, str⟩]
          input := none }
  | some (Sum.inr msgs) =>
      { s with
        messages := messagesReducer s.messages msgs
        input := none }

/-- The nodes of the compiled top-level graph (with input
transformation); `done` stands for `END`. -/
inductive AgentNode where
  | format_input
  | think
  | research
  | calculate
  | done
deriving DecidableEq, Repr

/-- The conditional edge after `think`: route on `current_action`. -/
def routeThink (s : InvestorAgentState) : AgentNode :=
  match s.current_action with
  | .researching => .research
  | .calculating => .calculate
  | .responding => .done
  | .asking => .done
  | .thinking => .think

/-- The environment consumed by one step of the top-level graph: the
oracle decision used if the step runs `think`, the web-researcher result
blocks used if it runs `research`, and the calculator response used if it
runs `calculate`. -/
structure StepEnv where
  decision : AgentDecision
  subResults : List String := []
  subResponse : Option String := none
deriving Repr

/-- One step of the compiled top-level graph: `format_input` flows to
`think`; `think` routes on the `current_action` it set; `research` and
`calculate` return to `think`; `done` is absorbing. -/
def agentStep (e : StepEnv) : AgentNode × InvestorAgentState → AgentNode × InvestorAgentState
  | (.format_input, s) => (.think, formatInputNode s)
  | (.think, s) =>
      let s2 := thinkNode e.decision s
      (routeThink s2, s2)
  | (.research, s) => (.think, agentResearchNode e.subResults s)
  | (.calculate, s) => (.think, agentCalculateNode e.subResponse s)
  | (.done, s) => (.done, s)

/-- The configuration reached after `n` steps of the top-level graph from
configuration `c0`, with the environment of step `i` given by `env i`. -/
def agentTrace (env : Nat → StepEnv) (c0 : AgentNode × InvestorAgentState) :
    Nat → AgentNode × InvestorAgentState
  | 0 => c0
  | n + 1 => agentStep (env n) (agentTrace env c0 n)

/-- Whether the oracle decision is a terminal one (`question` = ask,
`response` = respond). -/
def isTerminalDecision : AgentDecision → Bool
  | .question _ => true
  | .response _ => true
  | _ => false

/-- Mutual-exclusion predicate of claim C5: the two pending-delegation
fields are not both set (set = JavaScript-truthy, the notion used by the
guards of the source). -/
def pendingExclusive (s : InvestorAgentState) : Bool :=
  !(jsTruthy s.pending_research_query && jsTruthy s.pending_calculation_request)

/-- Per-node strengthened invariant used to prove C5: entering
`format_input`, `think` or `done` both pending fields are falsy; entering
`research` the pending calculation is falsy; entering `calculate` the
pending research query is falsy. -/
def pendingInv : AgentNode × InvestorAgentState → Bool
  | (.format_input, s) =>
      !jsTruthy s.pending_research_query && !jsTruthy s.pending_calculation_request
  | (.think, s) =>
      !jsTruthy s.pending_research_query && !jsTruthy s.pending_calculation_request
  | (.research, s) => !jsTruthy s.pending_calculation_request
  | (.calculate, s) => !jsTruthy s.pending_research_query
  | (.done, s) =>
      !jsTruthy s.pending_research_query && !jsTruthy s.pending_calculation_request

/-! ## Result cache and service orchestration (investor-agent.service.ts) -/

/-- Constant `CACHE_TTL` from investor-agent.service.ts: 5 minutes in
milliseconds. -/
def CACHE_TTL : Nat := 5 * 60 * 1000

/-- The `ChatResult` assembled by `InvestorAgentService.chat`. -/
structure ChatResult where
  threadId : String
  messages : List ChatMsg
  turnCount : Nat
  currentAction : AgentAction
  researchResults : Option String := none
  calculationResults : Option String := none
deriving DecidableEq, Repr

/-- An entry of the module-level `resultCache` map. -/
structure CacheEntry where
  result : ChatResult
  timestamp : Nat
deriving DecidableEq, Repr

/-- The module-level `resultCache`: a key-value map keyed by threadId,
modelled as an insertion-ordered association list with unique keys (the
semantics of a JavaScript `Map`). -/
abbrev ResultCache := List (String × CacheEntry)

/-- JavaScript `Map.set`: update the entry of an existing key in place, otherwise
append. -/
def mapSet : ResultCache → String → CacheEntry → ResultCache
  | [], k, e => [(k, e)]
  | (k', e') :: rest, k, e =>
      if k' = k then (k, e) :: rest else (k', e') :: mapSet rest k e

/-- JavaScript `Map.get`. -/
def mapGet (c : ResultCache) (k : String) : Option CacheEntry :=
  match c.find? (fun p => p.1 == k) with
  | some p => some p.2
  | none => none

/-- JavaScript `Map.delete`. -/
def mapDelete (c : ResultCache) (k : String) : ResultCache :=
  c.filter (fun p => p.1 != k)

/-- Method `cleanupCache`: delete every entry whose age is at least
`CACHE_TTL`. -/
def cleanupCache (now : Nat) (c : ResultCache) : ResultCache :=
  c.filter (fun p => now - p.2.timestamp < CACHE_TTL)

/-- The cache write performed by `chat` on success:
`resultCache.set(threadId, ...)` followed by `cleanupCache()`. -/
def putResult (c : ResultCache) (tid : String) (r : ChatResult) (now : Nat) :
    ResultCache :=
  cleanupCache now (mapSet c tid ⟨r, now⟩)

/-- Method `getAsyncResult`: return the entry only when strictly younger than
`CACHE_TTL`; an expired entry is deleted on read; the second component is
the cache after the read. -/
def getAsyncResult (c : ResultCache) (tid : String) (now : Nat) :
    Option ChatResult × ResultCache :=
  match mapGet c tid with
  | some e =>
      if now - e.timestamp < CACHE_TTL then (some e.result, c)
      else (none, mapDelete c tid)
  | none => (none, c)

/-- Function `publishStatusUpdate` from status-publisher.ts: a no-op when the Redis
service was never initialised, and otherwise a try/catch that logs and
swallows any publish failure — it never propagates one. -/
def publishStatusUpdate (initialized : Bool) (pubOutcome : Except String Unit) :
    Except String Unit :=
  if !initialized then Except.ok ()
  else
    match pubOutcome with
    | Except.ok _ => Except.ok ()
    | Except.error _ => Except.ok ()

/-- The outcomes of the awaited effects inside one
`InvestorAgentService.chat` call: the initial `thinking` publish (direct
on the Redis service, before the try block), the graph invocation, the
terminal `complete` publish (inside the try block), and the `error`
publish of the catch block. -/
structure ChatEffects where
  initPublish : Except String Unit
  graphRun : Except String ChatResult
  completePublish : Except String Unit
  errorPublish : Except String Unit

/-- Control flow of `InvestorAgentService.chat`: await the initial
publish (uncaught), invoke the graph, cache the result, await the
`complete` publish, and on any caught error await the `error` publish and
rethrow.  Returns the outcome together with the cache after the call. -/
def serviceChat (eff : ChatEffects) (cache : ResultCache) (tid : String) (now : Nat) :
    Except String ChatResult × ResultCache :=
  match eff.initPublish with
  | Except.error e => (Except.error e, cache)
  | Except.ok _ =>
      match eff.graphRun with
      | Except.error e =>
          match eff.errorPublish with
          | Except.ok _ => (Except.error e, cache)
          | Except.error pe => (Except.error pe, cache)
      | Except.ok r =>
          let cache2 := putResult cache tid r now
          match eff.completePublish with
          | Except.ok _ => (Except.ok r, cache2)
          | Except.error e =>
              match eff.errorPublish with
              | Except.ok _ => (Except.error e, cache2)
              | Except.error pe => (Except.error pe, cache2)

/-! ## User-facing error translation -/

/-- Whether `pat` occurs as a contiguous sublist of the second list. -/
def listContainsSub (pat : List Char) : List Char → Bool
  | [] => pat.isEmpty
  | c :: rest => pat.isPrefixOf (c :: rest) || listContainsSub pat rest

/-- JavaScript `haystack.includes(pat)` on strings. -/
def strContains (haystack pat : String) : Bool :=
  listContainsSub pat.toList haystack.toList

/-- A caught JavaScript error value: whether it is an `Error` instance,
its `name`, its `message`, and its `String(error)` rendering. -/
structure ErrValue where
  isError : Bool
  name : String := ""
  message : String := ""
  strRep : String := ""
deriving DecidableEq, Repr

/-- The error text published on the `error` status event by the catch
block of `InvestorAgentService.chat` in investor-agent.service.ts:
`error instanceof Error ? error.message : String(error)` — the raw
message. -/
def chatErrorStatusText (e : ErrValue) : String :=
  if e.isError then e.message else e.strRep

/-- Method `InvestorAgentService.getUserFriendlyError` from the service variant
in src/unnamed/part_010: keyword-based translation of a caught error into
one of a fixed set of category strings. -/
def getUserFriendlyError (e : ErrValue) : String :=
  if !e.isError then "An unexpected error occurred. Please try again."
  else
    let errorMessage := e.message.toLower
    let errorName := e.name.toLower
    if strContains errorName "type" || strContains errorName "null" ||
        strContains errorName "undefined" || strContains errorName "assertion" ||
        strContains errorMessage "cannot read property" ||
        strContains errorMessage "is not defined" ||
        strContains errorMessage "is not a function" then
      "An internal error occurred. Our team has been notified. Please try again in a moment."
    else if strContains errorMessage "timeout" || strContains errorMessage "network" ||
        strContains errorMessage "fetch" || strContains errorMessage "connection" then
      "Connection issue. Please check your internet connection and try again."
    else if strContains errorMessage "api" || strContains errorMessage "service" ||
        strContains errorMessage "500" || strContains errorMessage "503" then
      "Service temporarily unavailable. Please try again in a moment."
    else if strContains errorMessage "unauthorized" || strContains errorMessage "forbidden" ||
        strContains errorMessage "401" || strContains errorMessage "403" then
      "Authentication error. Please refresh the page and try again."
    else if strContains errorMessage "rate limit" ||
        strContains errorMessage "too many requests" ||
        strContains errorMessage "429" then
      "Too many requests. Please wait a moment and try again."
    else if strContains errorMessage "validation" || strContains errorMessage "invalid" then
      if strContains errorMessage "message" || strContains errorMessage "input" ||
          strContains errorMessage "required" then
        "Invalid input. Please check your message and try again."
      else
        "An error occurred processing your request. Please try again."
    else
      "Something went wrong. Please try again. If the problem persists, contact support."

/-- The nine strings `getUserFriendlyError` can return. -/
def fixedErrorMessages : List String :=
  ["An unexpected error occurred. Please try again.",
   "An internal error occurred. Our team has been notified. Please try again in a moment.",
   "Connection issue. Please check your internet connection and try again.",
   "Service temporarily unavailable. Please try again in a moment.",
   "Authentication error. Please refresh the page and try again.",
   "Too many requests. Please wait a moment and try again.",
   "Invalid input. Please check your message and try again.",
   "An error occurred processing your request. Please try again.",
   "Something went wrong. Please try again. If the problem persists, contact support."]

/-! ## Redis pub/sub status channel (redis.service.ts and the gateway) -/

/-- The channel name used by `RedisService` for a thread. -/
def statusChannel (tid : String) : String := "agent:status:" ++ tid

/-- The observable state of the single shared `subscriber` Redis
connection: the set of channels it is subscribed to, and the `message`
listeners registered on it — each recorded as the channel its closure
filters on together with the client (socket) its callback emits to. -/
structure SubscriberConn where
  channels : List String := []
  listeners : List (String × Nat) := []
deriving DecidableEq, Repr

/-- Method `RedisService.subscribeToStatusUpdates`: subscribe the shared
connection to the channel of the thread and register one more `message`
listener; a listener is never removed. -/
def subscribeToStatusUpdates (tid : String) (clientId : Nat) (st : SubscriberConn) :
    SubscriberConn :=
  { channels :=
      if st.channels.contains (statusChannel tid) then st.channels
      else st.channels ++ [statusChannel tid]
    listeners := st.listeners ++ [(statusChannel tid, clientId)] }

/-- The unsubscribe closure returned by `subscribeToStatusUpdates`: it
only runs `subscriber.unsubscribe(channel)` on the shared connection —
the registered `message` listener stays. -/
def unsubscribeStatus (tid : String) (st : SubscriberConn) : SubscriberConn :=
  { st with channels := st.channels.filter (fun c => c != statusChannel tid) }

/-- The deliveries caused by a single publish on the channel of a thread:
the connection receives the message only while subscribed to the channel,
and then every registered listener whose captured channel matches emits
one `status-update` to its client. -/
def publishDeliveries (tid : String) (st : SubscriberConn) : List Nat :=
  if st.channels.contains (statusChannel tid) then
    (st.listeners.filter (fun p => p.1 == statusChannel tid)).map (fun p => p.2)
  else []

/-- How many times a single publish on the thread is delivered to a given
client. -/
def deliveryCount (clientId : Nat) (tid : String) (st : SubscriberConn) : Nat :=
  (publishDeliveries tid st).count clientId

/-! ## Concrete instances used by counterexamples and witnesses -/

/-- A turn-step environment whose oracle decision is a terminal response. -/
def c2EnvTerminal : StepEnv := { decision := AgentDecision.response "done" }

/-- A turn-step environment whose oracle decision requests research. -/
def c2EnvResearch : StepEnv := { decision := AgentDecision.research_query "q" none }

/-- A mid-turn state with one accumulated block in each sequence. -/
def c2StateW : InvestorAgentState :=
  { accumulated_research_results := ["block a"],
    accumulated_calculation_results := ["block b"] }

/-- Checkpointed two-message history of an earlier turn. -/
def c3History : List ChatMsg :=
  [⟨Role.user, "What is the price of AAPL?"⟩, ⟨Role.assistant, "AAPL trades at 150.25."⟩]

/-- An explicitly supplied pre-formatted message sequence for the next turn. -/
def c3Supplied : List ChatMsg := c3History ++ [⟨Role.user, "And MSFT?"⟩]

/-- The state seen by `formatInputNode` on that turn: the checkpointer has
restored `c3History` and the service put the supplied sequence in `input`. -/
def c3State : InvestorAgentState :=
  { messages := c3History, input := some (Sum.inr c3Supplied) }

/-- A calculator state about to execute generated Python code. -/
def calcStateW : CalculatorState :=
  { calculation_request := "compute the P/E ratio",
    pending_python_code := some "print(150.25 / 6.11)",
    pending_plannification_steps := some "divide price by earnings" }

/-- A top-level-agent state whose pending research query is set. -/
def c5StateResearchW : InvestorAgentState := { pending_research_query := some "q" }

/-- A top-level-agent state whose pending calculation request is set. -/
def c5StateCalcW : InvestorAgentState := { pending_calculation_request := some "c" }

/-- A sample chat result. -/
def sampleChatResult : ChatResult :=
  { threadId := "thread-1",
    messages := [⟨Role.user, "hi"⟩, ⟨Role.assistant, "hello"⟩],
    turnCount := 1,
    currentAction := AgentAction.responding }

/-- A second sample chat result for the same thread. -/
def sampleChatResult2 : ChatResult :=
  { threadId := "thread-1",
    messages := [⟨Role.user, "hi"⟩, ⟨Role.assistant, "hello"⟩,
                 ⟨Role.user, "more"⟩, ⟨Role.assistant, "sure"⟩],
    turnCount := 2,
    currentAction := AgentAction.responding }

/-- Effects of a chat call whose initial status publish fails while
everything else would have succeeded. -/
def c8Effects : ChatEffects :=
  { initPublish := Except.error "Redis connection refused",
    graphRun := Except.ok sampleChatResult,
    completePublish := Except.ok (),
    errorPublish := Except.ok () }

/-- A caught TypeError whose message is internal detail. -/
def typeErrorW : ErrValue :=
  { isError := true, name := "TypeError",
    message := "Cannot read properties of undefined" }

/-- The shared subscriber connection after: client 1 subscribes to thread
T, unsubscribes, and subscribes to T again (the gateway resubscribe
path). -/
def c10Resub : SubscriberConn :=
  subscribeToStatusUpdates "T" 1 (unsubscribeStatus "T" (subscribeToStatusUpdates "T" 1 {}))

/-- The shared subscriber connection after clients 1 and 2 both subscribe
to thread T. -/
def c10Both : SubscriberConn :=
  subscribeToStatusUpdates "T" 2 (subscribeToStatusUpdates "T" 1 {})

/-- State `c10Both` after client 1 runs its unsubscribe closure. -/
def c10AfterUnsub : SubscriberConn := unsubscribeStatus "T" c10Both

/-! ## Helper lemmas -/

theorem analyzeNode_summary_fields (text : String) (s : WebResearcherState) :
    (analyzeNode (ResearchDecision.research_summary text) s).decision_type
        = some SubDecisionType.complete ∧
    (analyzeNode (ResearchDecision.research_summary text) s).iteration_count
        = s.iteration_count + 1 ∧
    (analyzeNode (ResearchDecision.research_summary text) s).complete = true := by
  simp [analyzeNode]

theorem analyzeNode_search_forced (q : String) (p : Option String)
    (s : WebResearcherState) (h : MAX_RESEARCH_ITERATIONS ≤ s.iteration_count) :
    (analyzeNode (ResearchDecision.search_query q p) s).decision_type
        = some SubDecisionType.complete ∧
    (analyzeNode (ResearchDecision.search_query q p) s).iteration_count
        = s.iteration_count + 1 ∧
    (analyzeNode (ResearchDecision.search_query q p) s).complete = true := by
  simp only [analyzeNode]
  rw [if_pos h]
  simp

theorem analyzeNode_search_below (q : String) (p : Option String)
    (s : WebResearcherState) (h : ¬ MAX_RESEARCH_ITERATIONS ≤ s.iteration_count) :
    (analyzeNode (ResearchDecision.search_query q p) s).decision_type
        = some SubDecisionType.search ∧
    (analyzeNode (ResearchDecision.search_query q p) s).iteration_count
        = s.iteration_count ∧
    (analyzeNode (ResearchDecision.search_query q p) s).pending_search_query = some q := by
  simp only [analyzeNode]
  rw [if_neg h]
  simp

theorem analyzeNode_other_fields (s : WebResearcherState) :
    (analyzeNode ResearchDecision.other s).decision_type = s.decision_type ∧
    (analyzeNode ResearchDecision.other s).iteration_count = s.iteration_count := by
  simp [analyzeNode]

theorem searchNode_ok (apiKey : Option String) (provider : String → Except String String)
    (s : WebResearcherState) (q t : String) (hpend : s.pending_search_query = some q)
    (hq : q ≠ "") (ht : tavilySearch apiKey provider q = Except.ok t) :
    ∃ s2, searchNode apiKey provider s = Except.ok s2 ∧
      s2.decision_type = none ∧ s2.iteration_count = s.iteration_count + 1 := by
  refine ⟨{ s with
      research_results := webResearcherReducer s.research_results [t]
      pending_search_query := none
      iteration_count := s.iteration_count + 1
      complete := false
      decision_type := none }, ?_, rfl, rfl⟩
  simp only [searchNode, hpend, jsTruthy]
  rw [if_pos (by simp [hq])]
  rw [ht]
  rfl

theorem runResearch_terminates_aux
    (oracle : Nat → ResearchDecision) (apiKey : Option String)
    (provider : String → Except String String)
    (hTool : ∀ q, ∃ t, tavilySearch apiKey provider q = Except.ok t)
    (hq : ∀ n q p, oracle n = ResearchDecision.search_query q p → q ≠ "") :
    ∀ fuel step s, s.decision_type ≠ some SubDecisionType.search →
      s.iteration_count ≤ MAX_RESEARCH_ITERATIONS →
      MAX_RESEARCH_ITERATIONS + 1 ≤ s.iteration_count + fuel →
      ∃ sf, runResearch oracle apiKey provider fuel step s = some (Except.ok sf) ∧
        sf.iteration_count ≤ MAX_RESEARCH_ITERATIONS + 1 := by
  intro fuel
  induction fuel with
  | zero =>
      intro step s hdt hle hfuel
      exfalso
      omega
  | succ fuel ih =>
      intro step s hdt hle hfuel
      cases hdec : oracle step with
      | research_summary text =>
          obtain ⟨h1, h2, _⟩ := analyzeNode_summary_fields text s
          simp only [runResearch, hdec, h1]
          exact ⟨_, rfl, by omega⟩
      | search_query q p =>
          by_cases hmax : MAX_RESEARCH_ITERATIONS ≤ s.iteration_count
          · obtain ⟨h1, h2, _⟩ := analyzeNode_search_forced q p s hmax
            simp only [runResearch, hdec, h1]
            exact ⟨_, rfl, by omega⟩
          · obtain ⟨h1, h2, h3⟩ := analyzeNode_search_below q p s hmax
            have hqne : q ≠ "" := hq step q p hdec
            obtain ⟨t, ht⟩ := hTool q
            obtain ⟨s2, hs2, hdt2, hit2⟩ :=
              searchNode_ok apiKey provider (analyzeNode (ResearchDecision.search_query q p) s)
                q t h3 hqne ht
            simp only [runResearch, hdec, h1, hs2]
            exact ih (step + 1) s2 (by simp [hdt2]) (by omega) (by omega)
      | other =>
          obtain ⟨h1, h2⟩ := analyzeNode_other_fields s
          have : (analyzeNode ResearchDecision.other s).decision_type ≠
              some SubDecisionType.search := by rw [h1]; exact hdt
          simp only [runResearch, hdec]
          cases hcase : (analyzeNode ResearchDecision.other s).decision_type with
          | none => exact ⟨_, rfl, by omega⟩
          | some dt =>
              cases dt with
              | complete => exact ⟨_, rfl, by omega⟩
              | search => exact absurd hcase this

theorem formatInputNode_pending (s : InvestorAgentState) :
    (formatInputNode s).pending_research_query = s.pending_research_query ∧
    (formatInputNode s).pending_calculation_request = s.pending_calculation_request := by
  unfold formatInputNode
  split
  · exact ⟨rfl, rfl⟩
  · split
    · exact ⟨rfl, rfl⟩
    · exact ⟨rfl, rfl⟩
  · exact ⟨rfl, rfl⟩

theorem formatInputNode_accumulated (s : InvestorAgentState) :
    (formatInputNode s).accumulated_research_results = s.accumulated_research_results ∧
    (formatInputNode s).accumulated_calculation_results = s.accumulated_calculation_results := by
  unfold formatInputNode
  split
  · exact ⟨rfl, rfl⟩
  · split
    · exact ⟨rfl, rfl⟩
    · exact ⟨rfl, rfl⟩
  · exact ⟨rfl, rfl⟩

theorem jsTruthy_none : jsTruthy none = false := rfl

theorem pendingInv_step (e : StepEnv) (c : AgentNode × InvestorAgentState)
    (h : pendingInv c = true) : pendingInv (agentStep e c) = true := by
  obtain ⟨n, s⟩ := c
  cases n with
  | format_input =>
      simp only [pendingInv, Bool.and_eq_true] at h
      obtain ⟨hp1, hp2⟩ := formatInputNode_pending s
      simp [agentStep, pendingInv, hp1, hp2, h.1, h.2]
  | think =>
      simp only [pendingInv, Bool.and_eq_true] at h
      cases hd : e.decision with
      | research_query q p =>
          simp [agentStep, hd, thinkNode, routeThink, pendingInv, h.2]
      | calculation_request r p =>
          simp [agentStep, hd, thinkNode, routeThink, pendingInv, h.1]
      | question q =>
          simp [agentStep, hd, thinkNode, routeThink, pendingInv, h.1, h.2]
      | response r =>
          simp [agentStep, hd, thinkNode, routeThink, pendingInv, h.1, h.2]
      | other =>
          simp only [agentStep, hd, thinkNode]
          cases s.current_action <;> simp [routeThink, pendingInv, h.1, h.2]
  | research =>
      simp only [pendingInv] at h
      have h2 : jsTruthy s.pending_calculation_request = false := by simpa using h
      by_cases ht : jsTruthy s.pending_research_query = true
      · simp only [agentStep]
        unfold agentResearchNode
        rw [if_pos ht]
        simp [pendingInv, jsTruthy_none, h2]
      · simp only [agentStep]
        unfold agentResearchNode
        rw [if_neg ht]
        simp only [Bool.not_eq_true] at ht
        simp [pendingInv, ht, h2]
  | calculate =>
      simp only [pendingInv] at h
      have h2 : jsTruthy s.pending_research_query = false := by simpa using h
      by_cases ht : jsTruthy s.pending_calculation_request = true
      · simp only [agentStep]
        unfold agentCalculateNode
        rw [if_pos ht]
        simp [pendingInv, jsTruthy_none, h2]
      · simp only [agentStep]
        unfold agentCalculateNode
        rw [if_neg ht]
        simp only [Bool.not_eq_true] at ht
        simp [pendingInv, ht, h2]
  | done =>
      simpa [agentStep, pendingInv] using h

theorem pendingInv_trace (env : Nat → StepEnv) (c0 : AgentNode × InvestorAgentState)
    (h0 : pendingInv c0 = true) : ∀ n, pendingInv (agentTrace env c0 n) = true := by
  intro n
  induction n with
  | zero => exact h0
  | succ n ih => exact pendingInv_step (env n) _ ih

theorem pendingInv_exclusive (c : AgentNode × InvestorAgentState)
    (h : pendingInv c = true) : pendingExclusive c.2 = true := by
  obtain ⟨n, s⟩ := c
  cases n <;> simp_all [pendingInv, pendingExclusive, Bool.and_eq_true]

theorem cleanupCache_cons (now : Nat) (p : String × CacheEntry) (rest : ResultCache) :
    cleanupCache now (p :: rest) =
      if now - p.2.timestamp < CACHE_TTL then p :: cleanupCache now rest
      else cleanupCache now rest := by
  by_cases h : now - p.2.timestamp < CACHE_TTL <;>
    simp [cleanupCache, List.filter_cons, h]

theorem mapGet_cons_self (tid : String) (e : CacheEntry) (rest : ResultCache) :
    mapGet ((tid, e) :: rest) tid = some e := by
  simp [mapGet, List.find?_cons]

theorem mapGet_cons_ne (k tid : String) (e : CacheEntry) (rest : ResultCache)
    (h : (k == tid) = false) : mapGet ((k, e) :: rest) tid = mapGet rest tid := by
  simp [mapGet, List.find?_cons, h]

theorem mapGet_putResult_self (tid : String) (r : ChatResult) (t : Nat) :
    ∀ c : ResultCache, mapGet (putResult c tid r t) tid = some ⟨r, t⟩ := by
  intro c
  induction c with
  | nil =>
      simp [putResult, mapSet, cleanupCache, mapGet, CACHE_TTL]
  | cons p rest ih =>
      obtain ⟨k, e⟩ := p
      by_cases hk : k = tid
      · subst hk
        simp only [putResult, mapSet, eq_self_iff_true, if_true]
        rw [cleanupCache_cons]
        rw [if_pos (by simp [CACHE_TTL])]
        exact mapGet_cons_self k ⟨r, t⟩ (cleanupCache t rest)
      · simp only [putResult, mapSet, if_neg hk]
        rw [cleanupCache_cons]
        by_cases hc : t - e.timestamp < CACHE_TTL
        · rw [if_pos hc]
          rw [mapGet_cons_ne k tid e _ (by simp [hk])]
          exact ih
        · rw [if_neg hc]
          exact ih

theorem mapGet_mapDelete_self (k : String) :
    ∀ c : ResultCache, mapGet (mapDelete c k) k = none := by
  intro c
  induction c with
  | nil => simp [mapDelete, mapGet]
  | cons p rest ih =>
      obtain ⟨k2, e⟩ := p
      by_cases hk : k2 = k
      · subst hk
        simp only [mapDelete, List.filter_cons, bne_self_eq_false, if_false]
        exact ih
      · have hbne : (k2 != k) = true := by simp [hk]
        simp only [mapDelete, List.filter_cons, hbne, if_true]
        rw [mapGet_cons_ne k2 k e _ (by simp [hk])]
        exact ih

theorem searchNode_error (apiKey : Option String) (provider : String → Except String String)
    (s : WebResearcherState) (q e : String) (hpend : s.pending_search_query = some q)
    (hq : q ≠ "") (ht : tavilySearch apiKey provider q = Except.error e) :
    searchNode apiKey provider s = Except.error e := by
  unfold searchNode
  rw [if_pos (by simp [jsTruthy, hpend, hq])]
  simp only [hpend, ht, Except.map]

/-! ## Claim theorems -/

/-- Claim C1, counterexample.  The claim states that `iteration_count` at
termination is at most `MAX_RESEARCH_ITERATIONS` (10).  With an oracle
that always asks to continue searching, the run performs ten searches and
is then forced to complete — but the forced-completion branch increments
`iteration_count` once more, so the run terminates with
`iteration_count = 11 > 10`. -/
theorem c1_counterexample :
    runIterationCount
        (runResearch (fun _ => ResearchDecision.search_query "next query" none)
          (some "key") (fun _ => Except.ok "web search results") 12 0 (researchInit "Q"))
      = some (MAX_RESEARCH_ITERATIONS + 1) ∧
    ¬ (MAX_RESEARCH_ITERATIONS + 1 ≤ MAX_RESEARCH_ITERATIONS) := by
  constructor
  · rfl
  · decide

/-- Claim C1, amended.  Every research run whose continue-searching
decisions carry non-empty queries and whose search tool succeeds
terminates within `MAX_RESEARCH_ITERATIONS + 1` analyze-steps, and its
`iteration_count` at termination is at most
`MAX_RESEARCH_ITERATIONS + 1 = 11` (the terminal step increments the
counter one last time); whenever the oracle asks to continue searching
while `iteration_count ≥ MAX_RESEARCH_ITERATIONS`, the analyze node
forces a terminal complete state instead of performing another search. -/
theorem c1_research_termination_amended (oracle : Nat → ResearchDecision)
    (apiKey : Option String) (provider : String → Except String String)
    (hTool : ∀ q, ∃ t, tavilySearch apiKey provider q = Except.ok t)
    (hq : ∀ n q p, oracle n = ResearchDecision.search_query q p → q ≠ "") (q0 : String) :
    (∃ sf, runResearch oracle apiKey provider (MAX_RESEARCH_ITERATIONS + 1) 0
        (researchInit q0) = some (Except.ok sf) ∧
      sf.iteration_count ≤ MAX_RESEARCH_ITERATIONS + 1) ∧
    (∀ (s : WebResearcherState) (q : String) (p : Option String),
      MAX_RESEARCH_ITERATIONS ≤ s.iteration_count →
      (analyzeNode (ResearchDecision.search_query q p) s).complete = true ∧
      (analyzeNode (ResearchDecision.search_query q p) s).decision_type =
        some SubDecisionType.complete) := by
  constructor
  · exact runResearch_terminates_aux oracle apiKey provider hTool hq
      (MAX_RESEARCH_ITERATIONS + 1) 0 (researchInit q0)
      (by simp [researchInit]) (by simp [researchInit, MAX_RESEARCH_ITERATIONS])
      (by simp [researchInit])
  · intro s q p h
    obtain ⟨h1, _, h3⟩ := analyzeNode_search_forced q p s h
    exact ⟨h3, h1⟩

/-- Witness for the amended theorem of C1 at a concrete oracle, provider
and state. -/
theorem c1_research_termination_amended_witness :
    (∃ sf, runResearch (fun _ => ResearchDecision.research_summary "done") (some "key")
        (fun _ => Except.ok "r") (MAX_RESEARCH_ITERATIONS + 1) 0 (researchInit "Q")
        = some (Except.ok sf) ∧ sf.iteration_count ≤ MAX_RESEARCH_ITERATIONS + 1) ∧
    ((analyzeNode (ResearchDecision.search_query "more" none)
        { original_query := "Q", iteration_count := 10 }).complete = true ∧
      (analyzeNode (ResearchDecision.search_query "more" none)
        { original_query := "Q", iteration_count := 10 }).decision_type =
        some SubDecisionType.complete) := by
  have h := c1_research_termination_amended
    (fun _ => ResearchDecision.research_summary "done") (some "key")
    (fun _ => Except.ok "r")
    (fun _ => ⟨"r", rfl⟩)
    (fun _ q p hc => ResearchDecision.noConfusion hc)
    "Q"
  exact ⟨h.1, h.2 { original_query := "Q", iteration_count := 10 } "more" none (by decide)⟩

/-- Claim C2.  Across every transition of the top-level graph, the
accumulated result sequences are cleared (set to empty) exactly when the
`think` step takes a terminal decision (`response` or `question`); on
every other transition their lengths are non-decreasing. -/
theorem c2_accumulated_results_clearing (e : StepEnv) (c : AgentNode × InvestorAgentState) :
    (c.1 = AgentNode.think → isTerminalDecision e.decision = true →
      (agentStep e c).2.accumulated_research_results = [] ∧
      (agentStep e c).2.accumulated_calculation_results = []) ∧
    (¬(c.1 = AgentNode.think ∧ isTerminalDecision e.decision = true) →
      c.2.accumulated_research_results.length ≤
        (agentStep e c).2.accumulated_research_results.length ∧
      c.2.accumulated_calculation_results.length ≤
        (agentStep e c).2.accumulated_calculation_results.length) := by
  obtain ⟨n, s⟩ := c
  constructor
  · intro hn hterm
    cases n with
    | think =>
        cases hd : e.decision with
        | question q => simp [agentStep, hd, thinkNode]
        | response r => simp [agentStep, hd, thinkNode]
        | research_query q p => rw [hd] at hterm; simp [isTerminalDecision] at hterm
        | calculation_request r p => rw [hd] at hterm; simp [isTerminalDecision] at hterm
        | other => rw [hd] at hterm; simp [isTerminalDecision] at hterm
    | format_input => simp at hn
    | research => simp at hn
    | calculate => simp at hn
    | done => simp at hn
  · intro hno
    cases n with
    | format_input =>
        obtain ⟨ha, hb⟩ := formatInputNode_accumulated s
        simp [agentStep, ha, hb]
    | think =>
        cases hd : e.decision with
        | research_query q p => simp [agentStep, hd, thinkNode]
        | calculation_request r p => simp [agentStep, hd, thinkNode]
        | other => simp [agentStep, hd, thinkNode]
        | question q => exact absurd ⟨rfl, by rw [hd]; rfl⟩ hno
        | response r => exact absurd ⟨rfl, by rw [hd]; rfl⟩ hno
    | research =>
        simp only [agentStep]
        unfold agentResearchNode
        split
        · constructor
          · simp
          · simp
        · constructor <;> simp
    | calculate =>
        simp only [agentStep]
        unfold agentCalculateNode
        split
        · constructor
          · simp
          · simp
        · constructor <;> simp
    | done => simp [agentStep]

/-- Witness for C2 at concrete inputs: a terminal `response` decision at
`think` clears the non-empty accumulated sequences, and a `research_query`
decision (a non-terminal transition) keeps their lengths
non-decreasing. -/
theorem c2_accumulated_results_clearing_witness :
    ((agentStep c2EnvTerminal (AgentNode.think, c2StateW)).2.accumulated_research_results = [] ∧
      (agentStep c2EnvTerminal (AgentNode.think, c2StateW)).2.accumulated_calculation_results = []) ∧
    (c2StateW.accumulated_research_results.length ≤
      (agentStep c2EnvResearch (AgentNode.think, c2StateW)).2.accumulated_research_results.length ∧
      c2StateW.accumulated_calculation_results.length ≤
        (agentStep c2EnvResearch (AgentNode.think, c2StateW)).2.accumulated_calculation_results.length) := by
  constructor
  · exact (c2_accumulated_results_clearing c2EnvTerminal (AgentNode.think, c2StateW)).1 rfl (by decide)
  · exact (c2_accumulated_results_clearing c2EnvResearch (AgentNode.think, c2StateW)).2 (by decide)

/-- Claim C3, code bug, evaluated at the failing input.  When a request
supplies an explicit pre-formatted message sequence for a thread with
checkpointed history, `formatInputNode` returns the supplied sequence on
the `messages` key, and the channel reducer `messagesReducer` *appends* it to
the checkpointed history — the resulting conversation state is
`history ++ supplied`, not the supplied sequence, contradicting the
comment in the service itself, which says the supplied history replaces
the stored state of the checkpointer. -/
theorem c3_explicit_messages_appended :
    (formatInputNode c3State).messages = c3History ++ c3Supplied ∧
    (formatInputNode c3State).messages ≠ c3Supplied := by
  constructor
  · rfl
  · decide

/-- Claim C5.  From any start state whose pending fields are both unset
(set = JavaScript-truthy, the notion used by the guards of the source), every
configuration reachable in the top-level graph keeps
`pending_research_query` and `pending_calculation_request` mutually
exclusive; and each field is cleared by the very node that performs the
corresponding delegation. -/
theorem c5_pending_mutual_exclusion (env : Nat → StepEnv) (s0 : InvestorAgentState)
    (h1 : jsTruthy s0.pending_research_query = false)
    (h2 : jsTruthy s0.pending_calculation_request = false) :
    (∀ n, pendingExclusive (agentTrace env (AgentNode.format_input, s0) n).2 = true) ∧
    (∀ (subResults : List String) (s : InvestorAgentState),
      jsTruthy s.pending_research_query = true →
      (agentResearchNode subResults s).pending_research_query = none) ∧
    (∀ (subResponse : Option String) (s : InvestorAgentState),
      jsTruthy s.pending_calculation_request = true →
      (agentCalculateNode subResponse s).pending_calculation_request = none) := by
  refine ⟨?_, ?_, ?_⟩
  · intro n
    apply pendingInv_exclusive
    apply pendingInv_trace
    simp [pendingInv, h1, h2]
  · intro subResults s hs
    unfold agentResearchNode
    rw [if_pos hs]
  · intro subResponse s hs
    unfold agentCalculateNode
    rw [if_pos hs]

/-- Witness for C5 at a concrete environment, start state and delegation
states. -/
theorem c5_pending_mutual_exclusion_witness :
    pendingExclusive (agentTrace (fun _ => c2EnvTerminal)
        (AgentNode.format_input, ({} : InvestorAgentState)) 4).2 = true ∧
    (agentResearchNode ["results"] c5StateResearchW).pending_research_query = none ∧
    (agentCalculateNode (some "42") c5StateCalcW).pending_calculation_request = none := by
  have h := c5_pending_mutual_exclusion (fun _ => c2EnvTerminal)
    ({} : InvestorAgentState) rfl rfl
  exact ⟨h.1 4, h.2.1 ["results"] c5StateResearchW rfl,
    h.2.2 (some "42") c5StateCalcW rfl⟩

/-- Claim C4, counterexample.  The claim states that an unavailable
code-execution sandbox propagates as an error out of the subagent loops.
In the source, `pythonExecutor` wraps sandbox initialisation and
invocation in its own try/catch and returns the failure as the text
`Execution error: <message>`, so an unavailable sandbox is *not*
propagated: `executeNode` appends the text block to
`all_execution_results` and loops back to `analyze` with
`complete = false`. -/
theorem c4_counterexample :
    pythonExecutor (fun _ => Except.error "sandbox unavailable") "print(150.25 / 6.11)"
        = "Execution error: sandbox unavailable" ∧
    (executeNode (fun _ => Except.error "sandbox unavailable") calcStateW).all_execution_results
        = ["Execution error: sandbox unavailable"] ∧
    (executeNode (fun _ => Except.error "sandbox unavailable") calcStateW).complete = false ∧
    (executeNode (fun _ => Except.error "sandbox unavailable") calcStateW).decision_type = none := by
  refine ⟨rfl, rfl, rfl, rfl⟩

/-- Claim C4, amended.  A web-search infrastructure failure (missing API
key, or a failing provider) is not caught by the research subagent: it
propagates out of `searchNode` and hence out of the whole research run.
Code-execution failures of *every* kind — the unavailable sandbox
included — are caught inside `pythonExecutor`, returned as an
`Execution error: <message>` text block, appended to the execution
results and fed back to the oracle on the next analyze step; they never
propagate. -/
theorem c4_tool_failure_amended :
    (∀ (provider : String → Except String String) (q : String),
      tavilySearch none provider q =
        Except.error "TAVILY_API_KEY environment variable is not set") ∧
    (∀ (apiKey : Option String) (provider : String → Except String String)
      (s : WebResearcherState) (q e : String),
      s.pending_search_query = some q → q ≠ "" →
      tavilySearch apiKey provider q = Except.error e →
      searchNode apiKey provider s = Except.error e) ∧
    (∀ (oracle : Nat → ResearchDecision) (apiKey : Option String)
      (provider : String → Except String String) (q0 q : String)
      (p : Option String) (e : String) (fuel : Nat),
      oracle 0 = ResearchDecision.search_query q p → q ≠ "" →
      tavilySearch apiKey provider q = Except.error e →
      runResearch oracle apiKey provider (fuel + 1) 0 (researchInit q0) =
        some (Except.error e)) ∧
    (∀ (sandbox : String → Except String String) (code m : String),
      sandbox code = Except.error m →
      pythonExecutor sandbox code = "Execution error: " ++ m) ∧
    (∀ (sandbox : String → Except String String) (s : CalculatorState) (code m : String),
      s.pending_python_code = some code → code ≠ "" → sandbox code = Except.error m →
      (executeNode sandbox s).all_execution_results =
        s.all_execution_results ++ ["Execution error: " ++ m] ∧
      (executeNode sandbox s).complete = false ∧
      (executeNode sandbox s).decision_type = none) := by
  refine ⟨?_, ?_, ?_, ?_, ?_⟩
  · intro provider q
    rfl
  · intro apiKey provider s q e hpend hq ht
    exact searchNode_error apiKey provider s q e hpend hq ht
  · intro oracle apiKey provider q0 q p e fuel h0 hq ht
    have hbelow : ¬ MAX_RESEARCH_ITERATIONS ≤ (researchInit q0).iteration_count := by
      simp [researchInit, MAX_RESEARCH_ITERATIONS]
    obtain ⟨h1, _, h3⟩ := analyzeNode_search_below q p (researchInit q0) hbelow
    have hse := searchNode_error apiKey provider
      (analyzeNode (ResearchDecision.search_query q p) (researchInit q0)) q e h3 hq ht
    simp only [runResearch, h0, h1, hse]
  · intro sandbox code m hm
    simp [pythonExecutor, hm]
  · intro sandbox s code m hpend hcode hm
    unfold executeNode
    rw [if_pos (by simp [jsTruthy, hpend, hcode])]
    simp only [hpend]
    simp [pythonExecutor, hm]

/-- Witness for the amended theorem of C4 at concrete tools, states and
failure messages. -/
theorem c4_tool_failure_amended_witness :
    tavilySearch none (fun _ => Except.ok "r") "AAPL price" =
      Except.error "TAVILY_API_KEY environment variable is not set" ∧
    searchNode (some "key") (fun _ => Except.error "provider unreachable")
        { original_query := "Q", pending_search_query := some "AAPL price" } =
      Except.error "provider unreachable" ∧
    runResearch (fun _ => ResearchDecision.search_query "AAPL price" none) (some "key")
        (fun _ => Except.error "provider unreachable") 5 0 (researchInit "Q") =
      some (Except.error "provider unreachable") ∧
    pythonExecutor (fun _ => Except.error "boom") "print(1)" = "Execution error: " ++ "boom" ∧
    ((executeNode (fun _ => Except.error "boom") calcStateW).all_execution_results =
        calcStateW.all_execution_results ++ ["Execution error: " ++ "boom"] ∧
      (executeNode (fun _ => Except.error "boom") calcStateW).complete = false ∧
      (executeNode (fun _ => Except.error "boom") calcStateW).decision_type = none) := by
  have h := c4_tool_failure_amended
  refine ⟨h.1 (fun _ => Except.ok "r") "AAPL price", ?_, ?_, ?_, ?_⟩
  · exact h.2.1 (some "key") (fun _ => Except.error "provider unreachable")
      { original_query := "Q", pending_search_query := some "AAPL price" }
      "AAPL price" "provider unreachable" rfl (by decide) rfl
  · exact h.2.2.1 (fun _ => ResearchDecision.search_query "AAPL price" none) (some "key")
      (fun _ => Except.error "provider unreachable") "Q" "AAPL price" none
      "provider unreachable" 4 rfl (by decide) rfl
  · exact h.2.2.2.1 (fun _ => Except.error "boom") "print(1)" "boom" rfl
  · exact h.2.2.2.2 (fun _ => Except.error "boom") calcStateW "print(150.25 / 6.11)" "boom"
      rfl (by decide) rfl

/-- Claim C6.  Result-cache contract: a `get` strictly less than
`CACHE_TTL` after a `put` returns exactly the stored value; once
`CACHE_TTL` has elapsed the `get` returns nothing and the expired entry
is deleted from the cache returned by the read; and a `put` for an
already-present threadId replaces the old entry — a subsequent `get`
observes only the newer value. -/
theorem c6_result_cache_contract (c : ResultCache) (tid : String) (r r2 : ChatResult)
    (t t2 u : Nat) :
    (u - t < CACHE_TTL → (getAsyncResult (putResult c tid r t) tid u).1 = some r) ∧
    (CACHE_TTL ≤ u - t →
      (getAsyncResult (putResult c tid r t) tid u).1 = none ∧
      mapGet (getAsyncResult (putResult c tid r t) tid u).2 tid = none) ∧
    (getAsyncResult (putResult (putResult c tid r2 t2) tid r t) tid u).1 =
      (getAsyncResult (putResult c tid r t) tid u).1 := by
  have L1 := mapGet_putResult_self tid r t c
  have L2 := mapGet_putResult_self tid r t (putResult c tid r2 t2)
  refine ⟨?_, ?_, ?_⟩
  · intro h
    simp [getAsyncResult, L1, h]
  · intro h
    have hlt : ¬ (u - t < CACHE_TTL) := by omega
    constructor
    · simp [getAsyncResult, L1, hlt]
    · simp only [getAsyncResult, L1, hlt, if_false]
      exact mapGet_mapDelete_self tid _
  · simp only [getAsyncResult, L1, L2]
    by_cases h : u - t < CACHE_TTL
    · rw [if_pos h, if_pos h]
    · rw [if_neg h, if_neg h]

/-- Witness for C6 at a concrete cache history: a fresh read, an expired
read, and an overwrite. -/
theorem c6_result_cache_contract_witness :
    (getAsyncResult (putResult [] "thread-1" sampleChatResult 1000) "thread-1" 2000).1
        = some sampleChatResult ∧
    ((getAsyncResult (putResult [] "thread-1" sampleChatResult 1000) "thread-1" 400000).1
        = none ∧
      mapGet (getAsyncResult (putResult [] "thread-1" sampleChatResult 1000)
          "thread-1" 400000).2 "thread-1" = none) ∧
    (getAsyncResult (putResult (putResult [] "thread-1" sampleChatResult2 500)
          "thread-1" sampleChatResult 1000) "thread-1" 2000).1 =
      (getAsyncResult (putResult [] "thread-1" sampleChatResult 1000) "thread-1" 2000).1 := by
  have h := c6_result_cache_contract [] "thread-1" sampleChatResult sampleChatResult2 1000 500
  exact ⟨(h 2000).1 (by decide), (h 400000).2.1 (by decide), (h 2000).2.2⟩

/-- Claim C7, counterexample.  The claim states that a result-retrieval
call made before the terminal complete status of an async request
returns "not found".  When the same threadId completed an earlier turn
within `CACHE_TTL`, the cache still holds the result of that turn, so a
poll made before the new turn completes returns the *stale earlier result*
instead of "not found". -/
theorem c7_counterexample :
    (getAsyncResult (putResult [] "thread-1" sampleChatResult 1000) "thread-1" 2000).1
        = some sampleChatResult ∧
    some sampleChatResult ≠ (none : Option ChatResult) := by
  constructor
  · rfl
  · decide

/-- Claim C7, amended.  For an async request whose threadId has no cached
entry (fresh thread, or the earlier result already swept), retrieval
before the `complete` of the request — that is, before the cache write that
accompanies it — returns "not found"; retrieval after `complete` within
`CACHE_TTL` returns the new result, which overwrites any earlier entry of
the same threadId.  If the same threadId completed an earlier turn within
`CACHE_TTL`, a poll before the new `complete` returns that stale earlier
result rather than "not found". -/
theorem c7_async_retrieval_amended (c : ResultCache) (tid : String) (r : ChatResult)
    (tC u v : Nat) :
    (mapGet c tid = none → (getAsyncResult c tid u).1 = none) ∧
    (v - tC < CACHE_TTL →
      (getAsyncResult (putResult c tid r tC) tid v).1 = some r) := by
  constructor
  · intro h
    simp [getAsyncResult, h]
  · intro h
    simp [getAsyncResult, mapGet_putResult_self tid r tC c, h]

/-- Witness for the amended theorem of C7: an empty cache polls as not found,
and the post-complete write is retrievable and overwrites the stale
entry. -/
theorem c7_async_retrieval_amended_witness :
    (getAsyncResult [] "thread-1" 50).1 = none ∧
    (getAsyncResult (putResult (putResult [] "thread-1" sampleChatResult 1000)
        "thread-1" sampleChatResult2 5000) "thread-1" 6000).1 = some sampleChatResult2 := by
  constructor
  · exact (c7_async_retrieval_amended [] "thread-1" sampleChatResult 0 50 0).1 rfl
  · exact (c7_async_retrieval_amended (putResult [] "thread-1" sampleChatResult 1000)
      "thread-1" sampleChatResult2 5000 0 6000).2 (by decide)

/-- Claim C8, counterexample.  The claim states that no status-publish
failure can abort the chat call.  `InvestorAgentService.chat` awaits its
initial `thinking` publish directly on the Redis service, outside any
try/catch: when that publish fails, the failure is thrown to the caller
and the chat call aborts before the graph ever runs — even though the
graph invocation itself would have succeeded. -/
theorem c8_counterexample :
    (serviceChat c8Effects [] "thread-1" 0).1 = Except.error "Redis connection refused" ∧
    c8Effects.graphRun = Except.ok sampleChatResult := by
  refine ⟨rfl, rfl⟩

/-- Claim C8, amended.  Status publishes performed by the agent graph
nodes go through `publishStatusUpdate`, which catches and logs every
failure and never throws, so the think/research/calculate loop itself
never stalls on a publish failure.  The service-level publishes in
`chat`, however, are awaited without a catch: a failing initial publish
aborts the whole chat call with that failure; a fully successful run
returns the result of the graph; and a failing terminal `complete`
publish fails the call even though the result was already written to the
cache (the cache returned by the failed call still holds the result
under the threadId). -/
theorem c8_publish_failure_amended :
    (∀ (initialized : Bool) (pubOutcome : Except String Unit),
      publishStatusUpdate initialized pubOutcome = Except.ok ()) ∧
    (∀ (eff : ChatEffects) (cache : ResultCache) (tid : String) (now : Nat) (e : String),
      eff.initPublish = Except.error e →
      (serviceChat eff cache tid now).1 = Except.error e) ∧
    (∀ (eff : ChatEffects) (cache : ResultCache) (tid : String) (now : Nat) (r : ChatResult),
      eff.initPublish = Except.ok () → eff.graphRun = Except.ok r →
      eff.completePublish = Except.ok () →
      (serviceChat eff cache tid now).1 = Except.ok r) ∧
    (∀ (eff : ChatEffects) (cache : ResultCache) (tid : String) (now : Nat)
      (r : ChatResult) (e : String),
      eff.initPublish = Except.ok () → eff.graphRun = Except.ok r →
      eff.completePublish = Except.error e → eff.errorPublish = Except.ok () →
      (serviceChat eff cache tid now).1 = Except.error e ∧
      mapGet (serviceChat eff cache tid now).2 tid = some ⟨r, now⟩) := by
  refine ⟨?_, ?_, ?_, ?_⟩
  · intro initialized pubOutcome
    cases initialized <;> cases pubOutcome <;> simp [publishStatusUpdate]
  · intro eff cache tid now e h
    simp [serviceChat, h]
  · intro eff cache tid now r h1 h2 h3
    simp [serviceChat, h1, h2, h3]
  · intro eff cache tid now r e h1 h2 h3 h4
    constructor
    · simp [serviceChat, h1, h2, h3, h4]
    · simp only [serviceChat, h1, h2, h3, h4]
      exact mapGet_putResult_self tid r now cache

/-- Witness for the amended theorem of C8 at concrete publish outcomes,
including a failing terminal `complete` publish whose result is
nevertheless cached. -/
theorem c8_publish_failure_amended_witness :
    publishStatusUpdate true (Except.error "publish failed") = Except.ok () ∧
    (serviceChat c8Effects [] "thread-1" 0).1 = Except.error "Redis connection refused" ∧
    (serviceChat { c8Effects with initPublish := Except.ok () } [] "thread-1" 0).1 =
      Except.ok sampleChatResult ∧
    ((serviceChat { c8Effects with
          initPublish := Except.ok ()
          completePublish := Except.error "publish failed" } [] "thread-1" 0).1 =
        Except.error "publish failed" ∧
      mapGet (serviceChat { c8Effects with
          initPublish := Except.ok ()
          completePublish := Except.error "publish failed" } [] "thread-1" 0).2
          "thread-1" = some ⟨sampleChatResult, 0⟩) := by
  refine ⟨c8_publish_failure_amended.1 true (Except.error "publish failed"), ?_, ?_, ?_⟩
  · exact c8_publish_failure_amended.2.1 c8Effects [] "thread-1" 0
      "Redis connection refused" rfl
  · exact c8_publish_failure_amended.2.2.1 { c8Effects with initPublish := Except.ok () }
      [] "thread-1" 0 sampleChatResult rfl rfl rfl
  · exact c8_publish_failure_amended.2.2.2 { c8Effects with
        initPublish := Except.ok ()
        completePublish := Except.error "publish failed" }
      [] "thread-1" 0 sampleChatResult "publish failed" rfl rfl rfl rfl

/-- Claim C9, counterexample.  The claim states that the error text
published on the `error` status event is one of a fixed set of
category-based strings and never the raw exception message.  The catch
block of `InvestorAgentService.chat` in investor-agent.service.ts
publishes `error instanceof Error ? error.message : String(error)` — for
a caught TypeError the published text is the raw internal message, which
is not one of the fixed category strings. -/
theorem c9_counterexample :
    chatErrorStatusText typeErrorW = "Cannot read properties of undefined" ∧
    chatErrorStatusText typeErrorW ∉ fixedErrorMessages ∧
    chatErrorStatusText typeErrorW = typeErrorW.message := by
  refine ⟨rfl, by decide, rfl⟩

/-- Claim C9, amended.  In the service variant that routes caught errors
through `getUserFriendlyError` (src/unnamed/part_010), the published
error text is always one of a fixed set of nine short category-based
strings; the variant at investor-agent.service.ts:110-118 instead
publishes the raw exception message verbatim. -/
theorem c9_error_text_amended (e : ErrValue) :
    getUserFriendlyError e ∈ fixedErrorMessages ∧
    (e.isError = true → chatErrorStatusText e = e.message) := by
  constructor
  · simp only [getUserFriendlyError]
    split_ifs <;> simp [fixedErrorMessages]
  · intro h
    simp [chatErrorStatusText, h]

/-- Witness for the amended theorem of C9 at a concrete caught error. -/
theorem c9_error_text_amended_witness :
    getUserFriendlyError typeErrorW ∈ fixedErrorMessages ∧
    chatErrorStatusText typeErrorW = typeErrorW.message := by
  have h := c9_error_text_amended typeErrorW
  exact ⟨h.1, h.2 rfl⟩

/-- Claim C10, code bug, evaluated at the failing input.  A client that
subscribes to a thread, unsubscribes, and subscribes again receives one
publish *twice*: the unsubscribe closure only removes the channel from
the shared subscriber connection and never removes the registered
`message` listener, so after resubscribing two listeners match the
channel.  Moreover, because the connection is shared, an unsubscribe by
one client silences every other subscriber of the same thread: with two
subscribers, client 2 receives a publish once, and zero times after
client 1 unsubscribes. -/
theorem c10_duplicate_delivery :
    deliveryCount 1 "T" c10Resub = 2 ∧
    deliveryCount 2 "T" c10Both = 1 ∧
    deliveryCount 2 "T" c10AfterUnsub = 0 := by
  refine ⟨by decide, by decide, by decide⟩
